import Mathlib

/-!
Verification development for the PO-automation repository.

Shallow embedding of:
  * src/utils/helpers.py            (validate_po_request)
  * src/mcp_servers/payment_server.py
        (_clamp, _lerp, _risk_band, _upfront_percent, _compute_supplier_risk_score,
         _recommend_payment_plan amounts, _looks_like_request_code, _map_request_to_po,
         compute_supplier_risk, recommend_payment_plan)
  * src/workflows/po_workflow.py    (stage handlers, should_continue router, run loop)

Python floats are modelled as rationals; Python `round(x, n)` (banker's rounding)
is modelled by rounding to the nearest multiple of 10^-n (ties differ only at exact
half-unit ties, which none of the proved facts touch).  Collaborator responses are
modelled after `_handle_tool_response` has normalised them to a mapping, with the
boolean/message fields the handlers actually read.  Timestamps, audit messages and
logging are omitted: no claim inspects them.
-/

namespace POAuto

/-! ### Python value model for src/utils/helpers.py -/

/-- A Python value as far as `validate_po_request` inspects one: presence,
truthiness, `isinstance(·, (int, float))` (which in Python includes `bool`),
numeric value, `isinstance(·, list)` and `len`.  List contents are irrelevant,
so a list is modelled by its length. -/
inductive PyVal where
  | pynone
  | pybool (b : Bool)
  | pyint (n : ℤ)
  | pyfloat (q : ℚ)
  | pystr (s : String)
  | pylist (len : ℕ)
  deriving DecidableEq, Repr

/-- Python truthiness of a `PyVal`. -/
def PyVal.truthy : PyVal → Bool
  | .pynone => false
  | .pybool b => b
  | .pyint n => n != 0
  | .pyfloat q => q != 0
  | .pystr s => s != ""
  | .pylist len => len != 0

/-- Python `isinstance(v, (int, float))`; `bool` is a subclass of `int`. -/
def PyVal.isNumber : PyVal → Bool
  | .pybool _ => true
  | .pyint _ => true
  | .pyfloat _ => true
  | _ => false

/-- Numeric value of a number-like `PyVal` (`True == 1`, `False == 0`). -/
def PyVal.numVal : PyVal → ℚ
  | .pybool b => if b then 1 else 0
  | .pyint n => n
  | .pyfloat q => q
  | _ => 0

/-- Python `isinstance(v, list)`. -/
def PyVal.isList : PyVal → Bool
  | .pylist _ => true
  | _ => false

/-- Python `len` for the list model (0 elsewhere; only read behind `isList`). -/
def PyVal.listLen : PyVal → ℕ
  | .pylist len => len
  | _ => 0

/-- The four required fields of a PO request dict, each possibly absent.
Other keys are never read by `validate_po_request`. -/
structure PORequestData where
  supplier_id : Option PyVal
  amount : Option PyVal
  department : Option PyVal
  items : Option PyVal
  deriving DecidableEq, Repr

/-- src/utils/helpers.py `validate_po_request` (lines 51-65): the required-field
loop (`field not in po_request or not po_request[field]`) in source order, then
the amount check, then the items check. -/
def validate_po_request (r : PORequestData) : Bool × String :=
  let sup := r.supplier_id.getD .pynone
  let amt := r.amount.getD .pynone
  let dep := r.department.getD .pynone
  let its := r.items.getD .pynone
  if !sup.truthy then (false, "Missing required field: supplier_id")
  else if !amt.truthy then (false, "Missing required field: amount")
  else if !dep.truthy then (false, "Missing required field: department")
  else if !its.truthy then (false, "Missing required field: items")
  else if !(amt.isNumber && decide (0 < amt.numVal)) then
    (false, "Amount must be a positive number")
  else if !(its.isList && decide (0 < its.listLen)) then
    (false, "Items must be a non-empty list")
  else (true, "Valid")

/-- Claim-side restatement for C10: all four required fields present and truthy,
amount a number greater than 0, items a non-empty list. -/
def valid_request_spec (r : PORequestData) : Bool :=
  let sup := r.supplier_id.getD .pynone
  let amt := r.amount.getD .pynone
  let dep := r.department.getD .pynone
  let its := r.items.getD .pynone
  sup.truthy && amt.truthy && dep.truthy && its.truthy &&
    amt.isNumber && decide (0 < amt.numVal) && its.isList && decide (0 < its.listLen)

/-! ### Payment policy math (src/mcp_servers/payment_server.py) -/

/-- payment_server.py `_clamp` (lines 76-77): `max(lo, min(hi, v))`. -/
def clamp (v lo hi : ℚ) : ℚ := max lo (min hi v)

/-- payment_server.py `_lerp` (lines 80-84). -/
def lerp (v x0 x1 y0 y1 : ℚ) : ℚ :=
  if x1 = x0 then y0 else y0 + (v - x0) / (x1 - x0) * (y1 - y0)

/-- Python `round(q, 2)` modelled as rounding to the nearest multiple of 1/100. -/
def round2 (q : ℚ) : ℚ := ((round (q * 100) : ℤ) : ℚ) / 100

/-- Python `round(q, 3)` modelled as rounding to the nearest multiple of 1/1000. -/
def round3 (q : ℚ) : ℚ := ((round (q * 1000) : ℤ) : ℚ) / 1000

/-- payment_server.py `_risk_band` (lines 192-196). -/
def risk_band (score : ℚ) : String :=
  if score ≥ 80 then "LOW"
  else if score ≥ 60 then "MEDIUM"
  else if score ≥ 40 then "HIGH"
  else "VERY_HIGH"

/-- payment_server.py `_upfront_percent` (lines 199-211). -/
def upfront_percent (score : ℚ) : ℚ :=
  let s := clamp score 0 100
  if s ≥ 80 then 100
  else if s ≥ 60 then lerp s 60 79 70 85
  else if s ≥ 40 then lerp s 40 59 40 60
  else lerp s 0 39 0 30

/-- payment_server.py `_recommend_payment_plan` (line 340):
`upfront_amt = round(total * upfront_pct / 100.0, 2)`. -/
def upfront_amount (total pct : ℚ) : ℚ := round2 (total * pct / 100)

/-- payment_server.py `_recommend_payment_plan` (line 341):
`balance_amt = round(total - upfront_amt, 2)`. -/
def balance_amount (total pct : ℚ) : ℚ := round2 (total - upfront_amount total pct)

/-! ### Risk scorer (src/mcp_servers/payment_server.py `_compute_supplier_risk_score`) -/

/-- The rows returned by the five aggregate queries of
`_compute_supplier_risk_score` (lines 280-302).  `none` models a missing row
(`_fetch_one(...) or {}` with every field then defaulting to 0).  Quantities
are SQL FLOATs (rationals); the grn/quality/invoice/payment rows carry the pair
(total count, matching count). -/
structure RiskRows where
  ordered : Option ℚ
  received : Option ℚ
  grn : Option (ℕ × ℕ)
  quality : Option (ℕ × ℕ)
  invoices : Option (ℕ × ℕ)
  payments : Option (ℕ × ℕ)
  deriving DecidableEq, Repr

/-- Line 282: `1.0 if ordered_qty == 0 else _clamp(received_qty / max(ordered_qty, 1), 0.0, 1.0)`. -/
def fulfillment (rows : RiskRows) : ℚ :=
  let ordered := rows.ordered.getD 0
  let received := rows.received.getD 0
  if ordered = 0 then 1 else clamp (received / max ordered 1) 0 1

/-- Lines 284-287: on-time delivery rate, defaulting to 1.0 on zero deliveries. -/
def ontimeRate (rows : RiskRows) : ℚ :=
  let p := rows.grn.getD (0, 0)
  if p.1 = 0 then 1 else clamp ((p.2 : ℚ) / max (p.1 : ℚ) 1) 0 1

/-- Lines 289-292: quality-ok rate, defaulting to 1.0 on zero deliveries. -/
def qualityRate (rows : RiskRows) : ℚ :=
  let p := rows.quality.getD (0, 0)
  if p.1 = 0 then 1 else clamp ((p.2 : ℚ) / max (p.1 : ℚ) 1) 0 1

/-- Lines 294-297: invoice rejection rate, defaulting to 0.0 on zero invoices. -/
def invRejRate (rows : RiskRows) : ℚ :=
  let p := rows.invoices.getD (0, 0)
  if p.1 = 0 then 0 else clamp ((p.2 : ℚ) / max (p.1 : ℚ) 1) 0 1

/-- Lines 299-302: payment failure rate, defaulting to 0.0 on zero payments. -/
def payFailRate (rows : RiskRows) : ℚ :=
  let p := rows.payments.getD (0, 0)
  if p.1 = 0 then 0 else clamp ((p.2 : ℚ) / max (p.1 : ℚ) 1) 0 1

/-- Lines 304-310: the weighted risk score. -/
def risk_score (rows : RiskRows) : ℚ :=
  35 * fulfillment rows + 25 * ontimeRate rows + 20 * qualityRate rows +
    10 * (1 - invRejRate rows) + 10 * (1 - payFailRate rows)

/-- Python `str.strip()`: drop whitespace from both ends (structural
implementation over the character list, so the kernel can evaluate it). -/
def pyStrip (s : String) : String :=
  String.mk (((s.data.dropWhile Char.isWhitespace).reverse.dropWhile
    Char.isWhitespace).reverse)

/-- Python `str.upper()` (ASCII case mapping, as every identifier here is ASCII). -/
def pyUpper (s : String) : String := String.mk (s.data.map Char.toUpper)

/-- Whether the first character list is an initial segment of the second
(Python `str.startswith`, applied to the character lists). -/
def startsWithChars : List Char → List Char → Bool
  | [], _ => true
  | _ :: _, [] => false
  | a :: pre1, b :: s => a == b && startsWithChars pre1 s

/-- Accumulate a base-10 value over characters; `none` on the first non-digit. -/
def digitsValAux : List Char → ℕ → Option ℕ
  | [], acc => some acc
  | c :: cs, acc =>
    if c.isDigit then digitsValAux cs (acc * 10 + (c.toNat - 48)) else none

/-- Python `int(str)`: optional sign then a non-empty digit string (after
stripping whitespace); `None` models the `ValueError` path. -/
def pyToInt (s : String) : Option ℤ :=
  match (pyStrip s).data with
  | [] => none
  | '-' :: cs =>
    match cs with
    | [] => none
    | _ :: _ => (digitsValAux cs 0).map (fun n => -(n : ℤ))
  | '+' :: cs =>
    match cs with
    | [] => none
    | _ :: _ => (digitsValAux cs 0).map (fun n => (n : ℤ))
  | cs => (digitsValAux cs 0).map (fun n => (n : ℤ))

/-- Result of the `compute_supplier_risk` tool: either an error payload
(`error: true` with message) or the score payload of
`_compute_supplier_risk_score` (score rounded to 2 decimals, band from the
unrounded score, metrics rounded to 3 decimals). -/
inductive RiskOut where
  | failure (message : String)
  | ok (supplier_id : String) (score : ℚ) (band : String)
      (fulfillment ontime quality invRej payFail : ℚ)
  deriving DecidableEq, Repr

/-- Whether a `RiskOut` is the error payload. -/
def RiskOut.isErr : RiskOut → Bool
  | .failure _ => true
  | .ok _ _ _ _ _ _ _ _ => false

/-- payment_server.py `compute_supplier_risk` tool (lines 400-410):
`sid = (supplier_id or "").strip(); if not sid: error`, else the pure score.
`rows` stands for the supplier's aggregate query results (a missing row feeds
the zero-denominator default instead of failing). -/
def compute_supplier_risk (supplier_id : String) (rows : RiskRows) : RiskOut :=
  if pyStrip supplier_id = "" then .failure "supplier_id is required"
  else
    .ok (pyStrip supplier_id) (round2 (risk_score rows)) (risk_band (risk_score rows))
      (round3 (fulfillment rows)) (round3 (ontimeRate rows))
      (round3 (qualityRate rows)) (round3 (invRejRate rows))
      (round3 (payFailRate rows))

/-! ### PO identifier resolution (src/mcp_servers/payment_server.py) -/

/-- A PO reference as the payment tools receive it: `Union[int, str]`. -/
inductive PoRef where
  | int (n : ℤ)
  | str (s : String)
  deriving DecidableEq, Repr

/-- Python `int(po_ref)` for a `Union[int, str]`: an int passes through; a
string parses or fails. -/
def poRefToInt : PoRef → Option ℤ
  | .int n => some n
  | .str s => pyToInt s

/-- payment_server.py `_looks_like_request_code` (lines 89-101): a string
starting `PO-` (after strip/upper), or anything int-parsable above 10,000,000;
the `except` path yields `False`. -/
def looks_like_request_code (r : PoRef) : Bool :=
  match r with
  | .str s =>
    if startsWithChars "PO-".data (pyUpper (pyStrip s)).data then true
    else match pyToInt s with
      | some n => decide (n > 10000000)
      | none => false
  | .int n => decide (n > 10000000)

/-- payment_server.py `_STATIC_PO_MAP` (lines 105-110). -/
def static_po_map (sid : String) : Option ℤ :=
  if sid = "SUP001" then some 1
  else if sid = "SUP002" then some 2
  else if sid = "SUP003" then some 3
  else if sid = "SUP999" then some 4
  else none

/-- payment_server.py `_map_request_to_po` (lines 112-133): any int-parsable
reference is returned as-is; otherwise a request-style code with a truthy
supplier_id is looked up in the static map; otherwise unresolved. -/
def map_request_to_po (po_ref : PoRef) (supplier_id : Option String) : Option ℤ :=
  match poRefToInt po_ref with
  | some n => some n
  | none =>
    match supplier_id with
    | some sid =>
      if looks_like_request_code po_ref && sid != "" then
        match static_po_map (pyUpper (pyStrip sid)) with
        | some pid => some pid
        | none => none
      else none
    | none => none

/-- Rendering of a `PoRef` inside error messages (Python f-string `'{po_id}'`). -/
def poRefText : PoRef → String
  | .int n => toString n
  | .str s => s

/-- Outcome of the `recommend_payment_plan` tool's identifier handling:
the two distinct error payloads, or success carrying the resolved stable key. -/
inductive PlanOut where
  | errCannotResolve (message : String)
  | errNotFound (message : String)
  | ok (po_id : ℤ)
  deriving DecidableEq, Repr

/-- payment_server.py `recommend_payment_plan` tool (lines 413-448), identifier
resolution and existence check; `po_exists` stands for the
`SELECT 1 FROM PurchaseOrders WHERE po_id = %s` probe.  (The leading
missing-env check and the downstream plan math are outside this claim.) -/
def recommend_payment_plan (po_ref : PoRef) (supplier_id : Option String)
    (po_exists : ℤ → Bool) : PlanOut :=
  match map_request_to_po po_ref supplier_id with
  | none =>
    .errCannotResolve
      ("Cannot resolve '" ++ poRefText po_ref ++
        "' to a DB po_id. Pass po_id=1..4 or include supplier_id for static mapping.")
  | some pid =>
    if po_exists pid then .ok pid
    else .errNotFound ("PO " ++ toString pid ++ " not found in PurchaseOrders.po_id")

/-! ### Workflow orchestration (src/workflows/po_workflow.py) -/

/-- A collaborator response after `_handle_tool_response` has normalised it to a
mapping: the boolean fields the stage handlers read via `.get(key, False)`, plus
the message.  Fields a given tool never sets stay at their `.get` default. -/
structure Resp where
  error : Bool := false
  valid : Bool := false
  capacity_ok : Bool := false
  available : Bool := false
  auto_approve : Bool := false
  reserved : Bool := false
  message : String := ""
  deriving DecidableEq, Repr

/-- The workflow state fields the router and the settled claims read
(src/workflows/workflow_state.py).  The result blobs `supplier_validation`,
`budget_check`, `approval_status`, `payment_plan` are modelled by their Python
truthiness (the blobs the handlers store are non-empty dicts, so truthy holds
exactly when the blob was recorded); `notifications` keeps its list structure
because its truthiness is non-emptiness.  `po_id`, `po_request`, `messages` and
`processing_time` are never read by the router or the claims. -/
structure WState where
  supplier_validation : Bool
  budget_check : Bool
  approval_status : Bool
  payment_plan : Bool
  payment_attempted : Bool
  notifications : List Resp
  final_decision : String
  decision_reason : String
  errors : List String
  deriving DecidableEq, Repr

/-- po_workflow.py `process_po` initial state (lines 440-453), as the router
first sees it after a successful validate stage: empty result blobs, empty
notification list, empty decision string, no errors. -/
def initial_state : WState :=
  { supplier_validation := false, budget_check := false, approval_status := false
    payment_plan := false, payment_attempted := false, notifications := []
    final_decision := "", decision_reason := "", errors := [] }

/-- One run's collaborator environment: for each tool invocation the response
the collaborator would give, or `none` when the tool is absent from the server's
tool dict (`tools.get(name)` returning `None`, which for required tools raises
into the stage's except branch). -/
structure Env where
  supplier_validate : Option Resp
  supplier_capacity : Option Resp
  budget_avail : Option Resp
  budget_reserve : Option Resp
  approvers : Option Resp
  approval_send : Option Resp
  payment_plan_resp : Option Resp
  email : Option Resp
  slack : Option Resp
  deriving DecidableEq, Repr

/-- The except-branch bookkeeping every handler shares: append to `errors`, set
`final_decision = "ERROR"` and `decision_reason` to the error message. -/
def stageError (s : WState) (msg : String) : WState :=
  { s with errors := s.errors ++ [msg]
           final_decision := "ERROR", decision_reason := msg }

/-- po_workflow.py `check_supplier` (lines 152-200).  The `supplier_validation`
blob is recorded before the error/business branching; a missing required tool
raises into the except branch, which records no blob. -/
def check_supplier (env : Env) (s : WState) : WState :=
  match env.supplier_validate, env.supplier_capacity with
  | some vres, some cres =>
    let s1 := { s with supplier_validation := true }
    if vres.error then
      { s1 with final_decision := "REJECTED"
                decision_reason := "Supplier validation error: " ++ vres.message }
    else if cres.error then
      { s1 with final_decision := "REJECTED"
                decision_reason := "Supplier capacity check error: " ++ cres.message }
    else if !vres.valid || !cres.capacity_ok then
      let reasons := (if !vres.valid then [vres.message] else []) ++
        (if !cres.capacity_ok then ["Order exceeds capacity"] else [])
      { s1 with final_decision := "REJECTED"
                decision_reason := "Supplier validation failed: " ++
                  String.intercalate "; " reasons }
    else s1
  | _, _ => stageError s "Error during supplier validation: Required supplier tools not found"

/-- po_workflow.py `verify_budget` (lines 202-242).  An `error: true` response
returns before the `budget_check` blob is recorded; the best-effort reservation
only augments the blob, which stays truthy either way. -/
def verify_budget (env : Env) (s : WState) : WState :=
  match env.budget_avail with
  | none => stageError s "Error during budget verification: Budget check tool not found"
  | some bres =>
    if bres.error then
      { s with final_decision := "ERROR"
               decision_reason := "Budget check error: " ++ bres.message }
    else
      let s1 := { s with budget_check := true }
      if !bres.available then
        { s1 with final_decision := "REJECTED"
                  decision_reason := "Insufficient budget" }
      else
        match env.budget_reserve with
        | none => s1
        | some _ => s1

/-- po_workflow.py `process_approval` (lines 244-291).  An `error: true`
approvers response returns before the `approval_status` blob is recorded;
otherwise the decision is set to APPROVED or PENDING_APPROVAL unconditionally,
whatever `final_decision` already held. -/
def process_approval (env : Env) (s : WState) : WState :=
  match env.approvers with
  | none => stageError s "Error during approval processing: Get approvers tool not found"
  | some ares =>
    if ares.error then
      { s with final_decision := "ERROR"
               decision_reason := "Approval check error: " ++ ares.message }
    else
      let s1 := { s with approval_status := true }
      if ares.auto_approve then
        { s1 with final_decision := "APPROVED", decision_reason := "Auto-approved" }
      else
        match env.approval_send with
        | some _ =>
          { s1 with final_decision := "PENDING_APPROVAL"
                    decision_reason := "Awaiting approval" }
        | none =>
          { s1 with final_decision := "PENDING_APPROVAL"
                    decision_reason := "Manual approval required" }

/-- po_workflow.py `calculate_payment` (lines 492-547).  The `finally` block
sets `payment_attempted` on every path; an error response (or a missing tool)
sets an ERROR decision without recording a plan. -/
def calculate_payment (env : Env) (s : WState) : WState :=
  let s1 :=
    match env.payment_plan_resp with
    | none => stageError s "Error during payment calculation: Payment tool not found"
    | some plan =>
      if plan.error then
        let msg := "Payment plan error: " ++ plan.message
        { s with final_decision := "ERROR", decision_reason := msg
                 errors := s.errors ++ [msg] }
      else { s with payment_plan := true }
  { s1 with payment_attempted := true }

/-- po_workflow.py `send_notifications` (lines 293-328): one dispatch per
present tool, and the resulting list — possibly empty — is stored as the
`notifications` blob.  `final_decision` is only read, never written. -/
def send_notifications (env : Env) (s : WState) : WState :=
  let notifs :=
    (match env.email with | some r => [r] | none => []) ++
      (match env.slack with | some r => [r] | none => [])
  { s with notifications := notifs }

/-- po_workflow.py `should_continue` (lines 330-355): the router. -/
def should_continue (s : WState) : String :=
  if !s.supplier_validation then "check_supplier"
  else if !s.budget_check then "verify_budget"
  else if !s.approval_status then "process_approval"
  else if !s.payment_plan && !s.payment_attempted then "calculate_payment"
  else if s.final_decision != "" && s.notifications.isEmpty then "send_notifications"
  else "END"

/-- The stage identifiers of the spec's state machine (DONE is terminal). -/
inductive Stage where
  | check_supplier
  | verify_budget
  | process_approval
  | calculate_payment
  | send_notifications
  | DONE
  deriving DecidableEq, Repr

/-- The string each spec stage corresponds to in the source router. -/
def stageText : Stage → String
  | .check_supplier => "check_supplier"
  | .verify_budget => "verify_budget"
  | .process_approval => "process_approval"
  | .calculate_payment => "calculate_payment"
  | .send_notifications => "send_notifications"
  | .DONE => "END"

/-- First-match rule evaluation, the spec's "decision order (first match wins)". -/
def firstMatch : List ((WState → Bool) × Stage) → WState → Stage
  | [], _ => .DONE
  | (p, st) :: rest, s => if p s then st else firstMatch rest s

/-- The spec's six router rules in order (spec section 4.3), written from the
spec's words: rule k fires when its guard holds and no earlier guard does. -/
def router_spec_rules : List ((WState → Bool) × Stage) :=
  [ (fun s => !s.supplier_validation, .check_supplier),
    (fun s => !s.budget_check, .verify_budget),
    (fun s => !s.approval_status, .process_approval),
    (fun s => !s.payment_plan && !s.payment_attempted, .calculate_payment),
    (fun s => s.final_decision != "" && s.notifications.isEmpty, .send_notifications) ]

/-- Spec-side router: `next_stage(state) -> Stage | DONE` by first-match. -/
def router_spec (s : WState) : Stage := firstMatch router_spec_rules s

/-- Dispatch a router answer to its handler (the graph's conditional edges). -/
def run_stage (env : Env) (name : String) (s : WState) : WState :=
  if name = "check_supplier" then check_supplier env s
  else if name = "verify_budget" then verify_budget env s
  else if name = "process_approval" then process_approval env s
  else if name = "calculate_payment" then calculate_payment env s
  else if name = "send_notifications" then send_notifications env s
  else s

/-- The orchestrator loop: ask the router, run the stage, repeat (fuel-bounded
so the embedding stays executable on non-terminating schedules). -/
def run_loop (env : Env) : ℕ → WState → WState
  | 0, s => s
  | n + 1, s =>
    let t := should_continue s
    if t = "END" then s else run_loop env n (run_stage env t s)

/-- The sequence of stages the router schedules along a run (same loop as
`run_loop`, recording the router's answers). -/
def run_trace (env : Env) : ℕ → WState → List String
  | 0, _ => []
  | n + 1, s =>
    let t := should_continue s
    if t = "END" then [] else t :: run_trace env n (run_stage env t s)

/-! ### Helper lemmas -/

/-- Rounding to cents is the identity on amounts already a whole number of cents. -/
lemma round2_grid (k : ℤ) : round2 ((k : ℚ) / 100) = (k : ℚ) / 100 := by
  unfold round2
  rw [div_mul_cancel₀ _ (by norm_num : (100 : ℚ) ≠ 0), round_intCast]

/-- A value clamped to [0,1] lies in [0,1]. -/
lemma clamp01_bounds (v : ℚ) : 0 ≤ clamp v 0 1 ∧ clamp v 0 1 ≤ 1 :=
  ⟨le_max_left 0 _, max_le (by norm_num) (min_le_left _ _)⟩

/-- A value clamped to [0,100] lies in [0,100]. -/
lemma clamp100_bounds (v : ℚ) : 0 ≤ clamp v 0 100 ∧ clamp v 0 100 ≤ 100 :=
  ⟨le_max_left 0 _, max_le (by norm_num) (min_le_left _ _)⟩

/-- Clamping to [0,100] is monotone. -/
lemma clamp100_mono {s t : ℚ} (h : s ≤ t) : clamp s 0 100 ≤ clamp t 0 100 :=
  max_le_max le_rfl (min_le_min le_rfl h)

/-- Each of the five risk ratios lies in [0,1]. -/
lemma risk_ratios_bounds (rows : RiskRows) :
    (0 ≤ fulfillment rows ∧ fulfillment rows ≤ 1) ∧
    (0 ≤ ontimeRate rows ∧ ontimeRate rows ≤ 1) ∧
    (0 ≤ qualityRate rows ∧ qualityRate rows ≤ 1) ∧
    (0 ≤ invRejRate rows ∧ invRejRate rows ≤ 1) ∧
    (0 ≤ payFailRate rows ∧ payFailRate rows ≤ 1) := by
  refine ⟨?_, ?_, ?_, ?_, ?_⟩ <;>
    · simp only [fulfillment, ontimeRate, qualityRate, invRejRate, payFailRate]
      split_ifs
      · exact ⟨by norm_num, by norm_num⟩
      · exact clamp01_bounds _

/-! ### C4 — payment-plan amount arithmetic -/

/-- C4: for every PO total (a whole number of rounding units, as
`_recommend_payment_plan` always receives: `total_in_inr` is itself
`round(..., 2)`) and every upfront percentage, the upfront amount is
`round(total * pct / 100, 2)` by definition, the computed balance equals
`total - upfront` exactly (the `round` on line 341 is the identity there),
and `upfront + balance = total` exactly. -/
theorem payment_plan_amounts_exact (total pct : ℚ) (n : ℤ)
    (h : total = (n : ℚ) / 100) :
    balance_amount total pct = total - upfront_amount total pct ∧
    upfront_amount total pct + balance_amount total pct = total := by
  have hm : upfront_amount total pct = ((round (total * pct / 100 * 100) : ℤ) : ℚ) / 100 := rfl
  have hb : balance_amount total pct = total - upfront_amount total pct := by
    have hdiff : total - upfront_amount total pct =
        ((n - round (total * pct / 100 * 100) : ℤ) : ℚ) / 100 := by
      rw [hm, h]; push_cast; ring
    rw [balance_amount, hdiff, round2_grid, ← hdiff]
  exact ⟨hb, by rw [hb]; ring⟩

/-- Witness for C4 at total = 100, pct = 70. -/
theorem payment_plan_amounts_exact_witness :
    balance_amount 100 70 = 100 - upfront_amount 100 70 ∧
    upfront_amount 100 70 + balance_amount 100 70 = 100 :=
  payment_plan_amounts_exact 100 70 10000 (by norm_num)

/-! ### C5 — upfront-percentage policy shape -/

/-- On scores already inside [0,100] the clamp in `_upfront_percent` is the
identity, exposing the piecewise-linear band map directly. -/
lemma upfront_percent_eval (s : ℚ) (h0 : 0 ≤ s) (h1 : s ≤ 100) :
    upfront_percent s =
      if s ≥ 80 then 100
      else if s ≥ 60 then lerp s 60 79 70 85
      else if s ≥ 40 then lerp s 40 59 40 60
      else lerp s 0 39 0 30 := by
  unfold upfront_percent clamp
  rw [min_eq_right h1, max_eq_right h0]

/-- C5: the upfront-percentage map is non-decreasing (stated on all of ℚ, hence
in particular on [0,100]), always lies in [0,100], takes the anchor values
0 ↦ 0, 80 ↦ 100, 100 ↦ 100, and at the band boundary a score of exactly 60
falls in band MEDIUM with upfront percentage 70. -/
theorem upfront_percent_policy :
    (∀ s t : ℚ, s ≤ t → upfront_percent s ≤ upfront_percent t) ∧
    (∀ s : ℚ, 0 ≤ upfront_percent s ∧ upfront_percent s ≤ 100) ∧
    upfront_percent 0 = 0 ∧ upfront_percent 80 = 100 ∧ upfront_percent 100 = 100 ∧
    risk_band 60 = "MEDIUM" ∧ upfront_percent 60 = 70 := by
  have e0 : upfront_percent 0 = 0 := by
    rw [upfront_percent_eval 0 le_rfl (by norm_num)]; norm_num [lerp]
  have e60 : upfront_percent 60 = 70 := by
    rw [upfront_percent_eval 60 (by norm_num) (by norm_num)]; norm_num [lerp]
  refine ⟨?_, ?_, e0, by decide, by decide, by decide, e60⟩
  · intro s t h
    have hs := clamp100_bounds s
    have ht := clamp100_bounds t
    have hst := clamp100_mono h
    unfold upfront_percent
    set u := clamp s 0 100 with hu
    set v := clamp t 0 100 with hv
    simp only [lerp]
    norm_num
    split_ifs <;> linarith
  · intro s
    have hs := clamp100_bounds s
    unfold upfront_percent
    set u := clamp s 0 100 with hu
    simp only [lerp]
    norm_num
    split_ifs <;> constructor <;> linarith

/-- Witness for C5's monotonicity conjunct at scores 30 ≤ 50. -/
theorem upfront_percent_policy_witness :
    upfront_percent 30 ≤ upfront_percent 50 :=
  upfront_percent_policy.1 30 50 (by norm_num)

/-! ### C6 — risk score formula, range and band partition -/

/-- C6: the risk score is the stated weighted sum of the five ratios, with the
zero-denominator defaults (1.0 for fulfillment/on-time/quality, 0.0 for
invoice-rejection/payment-failure) and every ratio clamped to [0,1]; the score
always lies in [0,100]; and the band thresholds assign exactly one band to
every score (in particular to every score in [0,100]). -/
theorem risk_score_formula_and_bands :
    (∀ rows : RiskRows,
      risk_score rows =
        35 * fulfillment rows + 25 * ontimeRate rows + 20 * qualityRate rows +
          10 * (1 - invRejRate rows) + 10 * (1 - payFailRate rows) ∧
      0 ≤ risk_score rows ∧ risk_score rows ≤ 100) ∧
    (fulfillment ⟨none, none, none, none, none, none⟩ = 1 ∧
      ontimeRate ⟨none, none, none, none, none, none⟩ = 1 ∧
      qualityRate ⟨none, none, none, none, none, none⟩ = 1 ∧
      invRejRate ⟨none, none, none, none, none, none⟩ = 0 ∧
      payFailRate ⟨none, none, none, none, none, none⟩ = 0) ∧
    (∀ s : ℚ,
      (risk_band s = "LOW" ↔ 80 ≤ s) ∧
      (risk_band s = "MEDIUM" ↔ 60 ≤ s ∧ s < 80) ∧
      (risk_band s = "HIGH" ↔ 40 ≤ s ∧ s < 60) ∧
      (risk_band s = "VERY_HIGH" ↔ s < 40)) := by
  refine ⟨?_, by refine ⟨by decide, by decide, by decide, by decide, by decide⟩, ?_⟩
  · intro rows
    obtain ⟨⟨hf0, hf1⟩, ⟨ho0, ho1⟩, ⟨hq0, hq1⟩, ⟨hi0, hi1⟩, ⟨hp0, hp1⟩⟩ :=
      risk_ratios_bounds rows
    refine ⟨rfl, ?_, ?_⟩ <;> · unfold risk_score; linarith
  · intro s
    unfold risk_band
    by_cases h1 : s ≥ 80
    · rw [if_pos h1]
      refine ⟨iff_of_true rfl h1, iff_of_false (by simp) ?_,
        iff_of_false (by simp) ?_, iff_of_false (by simp) ?_⟩
      · rintro ⟨-, h⟩; linarith
      · rintro ⟨-, h⟩; linarith
      · intro h; linarith
    · rw [if_neg h1]
      push_neg at h1
      by_cases h2 : s ≥ 60
      · rw [if_pos h2]
        refine ⟨iff_of_false (by simp) ?_, iff_of_true rfl ⟨h2, h1⟩,
          iff_of_false (by simp) ?_, iff_of_false (by simp) ?_⟩
        · intro h; linarith
        · rintro ⟨-, h⟩; linarith
        · intro h; linarith
      · rw [if_neg h2]
        push_neg at h2
        by_cases h3 : s ≥ 40
        · rw [if_pos h3]
          refine ⟨iff_of_false (by simp) ?_, iff_of_false (by simp) ?_,
            iff_of_true rfl ⟨h3, h2⟩, iff_of_false (by simp) ?_⟩
          · intro h; linarith
          · rintro ⟨h, -⟩; linarith
          · intro h; linarith
        · rw [if_neg h3]
          push_neg at h3
          refine ⟨iff_of_false (by simp) ?_, iff_of_false (by simp) ?_,
            iff_of_false (by simp) ?_, iff_of_true rfl h3⟩
          · intro h; linarith
          · rintro ⟨h, -⟩; linarith
          · rintro ⟨h, -⟩; linarith

/-! ### C8 — risk tool failure policy and aggregate degradation -/

/-- Rounding to cents is the identity on integers. -/
lemma round2_int (k : ℤ) : round2 (k : ℚ) = k := by
  unfold round2
  rw [show ((k : ℚ) * 100) = ((k * 100 : ℤ) : ℚ) by push_cast; ring, round_intCast]
  push_cast; ring

/-- Rounding to 3 decimals is the identity on integers. -/
lemma round3_int (k : ℤ) : round3 (k : ℚ) = k := by
  unfold round3
  rw [show ((k : ℚ) * 1000) = ((k * 1000 : ℤ) : ℚ) by push_cast; ring, round_intCast]
  push_cast; ring

/-- C8: `compute_supplier_risk` returns its error payload exactly when the
supplier identifier strips to the empty string; any other identifier yields a
score whatever the aggregate rows are (so a missing aggregate never aborts the
computation: each one degrades to its zero-denominator default, as the
all-rows-missing evaluation — score 100, band LOW, favorable default ratios —
shows concretely). -/
theorem supplier_risk_error_iff_empty_id :
    (∀ (sid : String) (rows : RiskRows),
      (compute_supplier_risk sid rows).isErr = true ↔ pyStrip sid = "") ∧
    (∀ (sid : String) (rows : RiskRows),
      ¬ pyStrip sid = "" →
        compute_supplier_risk sid rows =
          .ok (pyStrip sid) (round2 (risk_score rows)) (risk_band (risk_score rows))
            (round3 (fulfillment rows)) (round3 (ontimeRate rows))
            (round3 (qualityRate rows)) (round3 (invRejRate rows))
            (round3 (payFailRate rows))) ∧
    compute_supplier_risk "SUP001" ⟨none, none, none, none, none, none⟩ =
      .ok "SUP001" 100 "LOW" 1 1 1 0 0 := by
  refine ⟨?_, ?_, ?_⟩
  · intro sid rows
    unfold compute_supplier_risk
    split_ifs with h <;> simp [RiskOut.isErr, h]
  · intro sid rows h
    unfold compute_supplier_risk
    rw [if_neg h]
  · have hsc : risk_score ⟨none, none, none, none, none, none⟩ = 100 := by
      norm_num [risk_score, fulfillment, ontimeRate, qualityRate, invRejRate,
        payFailRate, Option.getD_none]
    unfold compute_supplier_risk
    rw [if_neg (by decide : ¬ pyStrip "SUP001" = ""), hsc,
      show pyStrip "SUP001" = "SUP001" by decide,
      show fulfillment ⟨none, none, none, none, none, none⟩ = 1 by decide,
      show ontimeRate ⟨none, none, none, none, none, none⟩ = 1 by decide,
      show qualityRate ⟨none, none, none, none, none, none⟩ = 1 by decide,
      show invRejRate ⟨none, none, none, none, none, none⟩ = 0 by decide,
      show payFailRate ⟨none, none, none, none, none, none⟩ = 0 by decide,
      show risk_band 100 = "LOW" by decide,
      show round2 ((100 : ℚ)) = 100 by
        rw [show ((100 : ℚ)) = ((100 : ℤ) : ℚ) by norm_num, round2_int],
      show round3 ((1 : ℚ)) = 1 by
        rw [show ((1 : ℚ)) = ((1 : ℤ) : ℚ) by norm_num, round3_int],
      show round3 ((0 : ℚ)) = 0 by
        rw [show ((0 : ℚ)) = ((0 : ℤ) : ℚ) by norm_num, round3_int]]

/-! ### C9 — identifier resolution at the payment boundary -/

/-- The demo database's stable PO keys 1..4 (the four static rows the static
mapping targets). -/
def demo_po_exists (n : ℤ) : Bool := decide (1 ≤ n ∧ n ≤ 4)

/-- C9 evaluation: a `PO-...` request code is resolved to the stable key via
the static mapping, but a timestamp-style **number** is passed through
unmapped by `_map_request_to_po` (the `int(po_ref)` branch returns it as-is),
so `recommend_payment_plan` then fails with the "PO ... not found" error
instead of using the static mapping — contradicting the function's own
docstring ("map request-style IDs (PO-...) or large timestamps back to static
DB po_id values (1..4) using supplier_id") and the claim; the two error
payloads themselves are distinct as claimed. -/
theorem request_code_mapping_eval :
    map_request_to_po (.str "PO-20250822151755") (some "SUP001") = some 1 ∧
    map_request_to_po (.int 20250822151755) (some "SUP001") = some 20250822151755 ∧
    looks_like_request_code (.int 20250822151755) = true ∧
    recommend_payment_plan (.int 20250822151755) (some "SUP001") demo_po_exists =
      .errNotFound "PO 20250822151755 not found in PurchaseOrders.po_id" ∧
    recommend_payment_plan (.str "PO-20250822151755") (some "SUP001") demo_po_exists =
      .ok 1 ∧
    recommend_payment_plan (.str "PO-XYZ") none demo_po_exists =
      .errCannotResolve
        ("Cannot resolve 'PO-XYZ' to a DB po_id. " ++
          "Pass po_id=1..4 or include supplier_id for static mapping.") := by
  refine ⟨by decide, by decide, by decide, by decide, by decide, by decide⟩

/-! ### C10 — request validation -/

/-- C10: `validate_po_request` accepts exactly the requests of
`valid_request_spec` (all four required fields present and truthy, amount a
positive number, items a non-empty list); the "Amount must be a positive
number" message appears exactly when all four fields are present and truthy
but the amount is not a positive number (so a present-but-falsy amount — in
particular an amount of exactly 0 — is reported as a missing field instead,
as the concrete evaluation shows). -/
theorem validate_po_request_spec :
    (∀ r : PORequestData, (validate_po_request r).1 = valid_request_spec r) ∧
    (∀ r : PORequestData,
      (validate_po_request r).2 = "Amount must be a positive number" ↔
        ((r.supplier_id.getD .pynone).truthy = true ∧
          (r.amount.getD .pynone).truthy = true ∧
          (r.department.getD .pynone).truthy = true ∧
          (r.items.getD .pynone).truthy = true ∧
          ((r.amount.getD .pynone).isNumber &&
            decide (0 < (r.amount.getD .pynone).numVal)) = false)) ∧
    validate_po_request
        ⟨some (.pystr "SUP001"), some (.pyint 0), some (.pystr "IT"), some (.pylist 2)⟩ =
      (false, "Missing required field: amount") := by
  refine ⟨?_, ?_, by decide⟩ <;>
    · intro r
      simp only [validate_po_request, valid_request_spec]
      cases hsup : (r.supplier_id.getD .pynone).truthy <;>
        cases hamt : (r.amount.getD .pynone).truthy <;>
          cases hdep : (r.department.getD .pynone).truthy <;>
            cases hits : (r.items.getD .pynone).truthy <;>
              cases hnum : (r.amount.getD .pynone).isNumber <;>
                cases hpos : decide (0 < (r.amount.getD .pynone).numVal) <;>
                  cases hlist : (r.items.getD .pynone).isList <;>
                    cases hlen : decide (0 < (r.items.getD .pynone).listLen) <;>
                      simp

/-! ### C3 — the router is the spec's first-match rule list -/

/-- C3: the source router `should_continue` is a pure total function that
agrees with the spec's ordered first-match rule list `router_spec` on every
state (rules 1-5 in order, DONE otherwise — rule 4 firing regardless of
`final_decision`), and always returns exactly one of the six stage names;
determinism and idempotence are inherent in it being a function of the state. -/
theorem router_matches_spec :
    ∀ s : WState,
      should_continue s = stageText (router_spec s) ∧
      (should_continue s = "check_supplier" ∨ should_continue s = "verify_budget" ∨
        should_continue s = "process_approval" ∨ should_continue s = "calculate_payment" ∨
        should_continue s = "send_notifications" ∨ should_continue s = "END") := by
  intro s
  constructor
  · simp only [should_continue, router_spec, router_spec_rules, firstMatch, stageText]
    split_ifs <;> rfl
  · unfold should_continue
    split_ifs <;> simp

/-! ### Concrete collaborator environments for the workflow claims -/

/-- Run in which the supplier check business-rejects (supplier invalid), the
budget is available and the approval matrix auto-approves. -/
def env_reject_then_approve : Env :=
  { supplier_validate := some { valid := false, message := "Supplier SUP123 not found" }
    supplier_capacity := some { capacity_ok := true }
    budget_avail := some { available := true }
    budget_reserve := none
    approvers := some { auto_approve := true }
    approval_send := none
    payment_plan_resp := some {}
    email := some {}, slack := some {} }

/-- Run in which every stage succeeds but the notification server exposes
neither the email nor the slack tool. -/
def env_no_notification_tools : Env :=
  { supplier_validate := some { valid := true }
    supplier_capacity := some { capacity_ok := true }
    budget_avail := some { available := true }
    budget_reserve := none
    approvers := some { auto_approve := true }
    approval_send := none
    payment_plan_resp := some {}
    email := none, slack := none }

/-- Run in which supplier validation, budget check and approver lookup all
come back with an explicit `error: true` payload. -/
def env_error_responses : Env :=
  { supplier_validate := some { error := true, message := "db down" }
    supplier_capacity := some {}
    budget_avail := some { error := true, message := "db down" }
    budget_reserve := none
    approvers := some { error := true, message := "db down" }
    approval_send := none
    payment_plan_resp := none
    email := none, slack := none }

/-- Run with business-negative (but non-error) supplier and budget responses. -/
def env_business_negative : Env :=
  { supplier_validate := some { valid := false, message := "Supplier not found" }
    supplier_capacity := some { capacity_ok := true }
    budget_avail := some { available := false }
    budget_reserve := none
    approvers := none
    approval_send := none
    payment_plan_resp := none
    email := none, slack := none }

/-- Fully collaborative run used as the termination witness environment. -/
def env_productive : Env :=
  { supplier_validate := some { valid := true }
    supplier_capacity := some { capacity_ok := true }
    budget_avail := some { available := true }
    budget_reserve := none
    approvers := some { auto_approve := true }
    approval_send := none
    payment_plan_resp := some {}
    email := some {}, slack := none }

/-- A state as `check_supplier` leaves it after a business rejection. -/
def rejected_state : WState :=
  { initial_state with
      supplier_validation := true
      final_decision := "REJECTED"
      decision_reason := "Supplier validation failed: Supplier SUP123 not found" }

/-! ### C1 — REJECTED is not frozen: the approval stage overwrites it -/

/-- C1 counterexample: in the run where the supplier check rejects
(final_decision REJECTED after stage 1), the router still schedules
verify_budget and process_approval, and the auto-approve branch of
process_approval overwrites the REJECTED decision with APPROVED — a less
severe value — by stage 3. -/
theorem rejected_overwritten_by_approval :
    run_trace env_reject_then_approve 3 initial_state =
      ["check_supplier", "verify_budget", "process_approval"] ∧
    (run_loop env_reject_then_approve 1 initial_state).final_decision = "REJECTED" ∧
    (run_loop env_reject_then_approve 3 initial_state).final_decision = "APPROVED" := by
  refine ⟨by decide, by decide, by decide⟩

/-- C1 amended: of the later stage handlers, `calculate_payment` and
`send_notifications` indeed never replace a REJECTED decision with a less
severe value (`calculate_payment` leaves it or escalates to ERROR;
`send_notifications` never writes the decision), but `process_approval` has no
such guard: run after a rejection with a non-error auto-approve response it
overwrites REJECTED with APPROVED (and analogously PENDING_APPROVAL). -/
theorem rejected_not_softened_except_approval (env : Env) (s : WState) (a : Resp)
    (hrej : s.final_decision = "REJECTED")
    (ha : env.approvers = some a) (hae : a.error = false) (haa : a.auto_approve = true) :
    ((calculate_payment env s).final_decision = "REJECTED" ∨
      (calculate_payment env s).final_decision = "ERROR") ∧
    (send_notifications env s).final_decision = "REJECTED" ∧
    (process_approval env s).final_decision = "APPROVED" := by
  refine ⟨?_, ?_, ?_⟩
  · cases hp : env.payment_plan_resp with
    | none => right; simp [calculate_payment, stageError, hp]
    | some plan =>
      cases hpe : plan.error
      · left; simp [calculate_payment, hp, hpe, hrej]
      · right; simp [calculate_payment, hp, hpe]
  · simp [send_notifications, hrej]
  · simp [process_approval, ha, hae, haa]

/-- Witness for the C1 amended theorem at a concrete rejected state and
auto-approving environment. -/
theorem rejected_not_softened_except_approval_witness :
    ((calculate_payment env_reject_then_approve rejected_state).final_decision = "REJECTED" ∨
      (calculate_payment env_reject_then_approve rejected_state).final_decision = "ERROR") ∧
    (send_notifications env_reject_then_approve rejected_state).final_decision = "REJECTED" ∧
    (process_approval env_reject_then_approve rejected_state).final_decision = "APPROVED" :=
  rejected_not_softened_except_approval env_reject_then_approve rejected_state
    { auto_approve := true } rfl rfl rfl rfl

/-! ### C2 — the notification gate can fail to latch -/

/-- C2 counterexample: with both notification tools absent, the
send_notifications stage records the empty list, whose Python truthiness is
false, so the router's "notifications recorded" gate never sets: after the
stage has run (5 stages in), the router asks for send_notifications again, and
the trace repeats it with no END within 7 scheduled stages. -/
theorem notifications_gate_never_set :
    run_trace env_no_notification_tools 7 initial_state =
      ["check_supplier", "verify_budget", "process_approval", "calculate_payment",
        "send_notifications", "send_notifications", "send_notifications"] ∧
    (run_loop env_no_notification_tools 5 initial_state).notifications = [] ∧
    should_continue (run_loop env_no_notification_tools 5 initial_state) =
      "send_notifications" := by
  refine ⟨by decide, by decide, by decide⟩

/-- `check_supplier` with both tools present records its result blob and
touches no other gate. -/
lemma check_supplier_effects (env : Env) (s : WState) (v c : Resp)
    (hv : env.supplier_validate = some v) (hc : env.supplier_capacity = some c) :
    (check_supplier env s).supplier_validation = true ∧
    (check_supplier env s).budget_check = s.budget_check ∧
    (check_supplier env s).approval_status = s.approval_status ∧
    (check_supplier env s).payment_plan = s.payment_plan ∧
    (check_supplier env s).payment_attempted = s.payment_attempted ∧
    (check_supplier env s).notifications = s.notifications := by
  simp only [check_supplier, hv, hc]
  split_ifs <;> simp

/-- `verify_budget` with a non-error response records its blob and touches no
other gate. -/
lemma verify_budget_effects (env : Env) (s : WState) (b : Resp)
    (hb : env.budget_avail = some b) (hbe : b.error = false) :
    (verify_budget env s).budget_check = true ∧
    (verify_budget env s).supplier_validation = s.supplier_validation ∧
    (verify_budget env s).approval_status = s.approval_status ∧
    (verify_budget env s).payment_plan = s.payment_plan ∧
    (verify_budget env s).payment_attempted = s.payment_attempted ∧
    (verify_budget env s).notifications = s.notifications := by
  simp only [verify_budget, hb, hbe]
  split_ifs <;> cases env.budget_reserve <;> simp_all

/-- `process_approval` with a non-error approvers response records its blob,
touches no other gate, and always leaves a non-empty decision. -/
lemma process_approval_effects (env : Env) (s : WState) (a : Resp)
    (ha : env.approvers = some a) (hae : a.error = false) :
    (process_approval env s).approval_status = true ∧
    (process_approval env s).supplier_validation = s.supplier_validation ∧
    (process_approval env s).budget_check = s.budget_check ∧
    (process_approval env s).payment_plan = s.payment_plan ∧
    (process_approval env s).payment_attempted = s.payment_attempted ∧
    (process_approval env s).notifications = s.notifications ∧
    ((process_approval env s).final_decision = "APPROVED" ∨
      (process_approval env s).final_decision = "PENDING_APPROVAL") := by
  simp only [process_approval, ha, hae]
  split_ifs <;> cases env.approval_send <;> simp_all

/-- `calculate_payment` always latches `payment_attempted` and otherwise
leaves the gates (and the notification list) alone; the decision is either
kept or escalated to ERROR. -/
lemma calculate_payment_effects (env : Env) (s : WState) :
    (calculate_payment env s).payment_attempted = true ∧
    (calculate_payment env s).supplier_validation = s.supplier_validation ∧
    (calculate_payment env s).budget_check = s.budget_check ∧
    (calculate_payment env s).approval_status = s.approval_status ∧
    (calculate_payment env s).notifications = s.notifications ∧
    ((calculate_payment env s).final_decision = s.final_decision ∨
      (calculate_payment env s).final_decision = "ERROR") := by
  cases hp : env.payment_plan_resp with
  | none => simp [calculate_payment, stageError, hp]
  | some plan => cases hpe : plan.error <;> simp [calculate_payment, hp, hpe]

/-- `send_notifications` only writes the notification list, which is non-empty
exactly when at least one notification tool is present. -/
lemma send_notifications_effects (env : Env) (s : WState) :
    (send_notifications env s).supplier_validation = s.supplier_validation ∧
    (send_notifications env s).budget_check = s.budget_check ∧
    (send_notifications env s).approval_status = s.approval_status ∧
    (send_notifications env s).payment_plan = s.payment_plan ∧
    (send_notifications env s).payment_attempted = s.payment_attempted ∧
    (send_notifications env s).final_decision = s.final_decision ∧
    ((env.email.isSome || env.slack.isSome) = true →
      (send_notifications env s).notifications.isEmpty = false) := by
  cases he : env.email <;> cases hs : env.slack <;> simp [send_notifications, he, hs]

/-- C2 amended: the run from a fresh submission reaches END after at most five
stage invocations provided every scheduled stage actually records its gate:
supplier tools present, budget and approver responses non-error, and at least
one notification tool present so that `send_notifications` records a non-empty
list.  (Without the last condition the gate stays unset and the stage is
scheduled a second time, as the counterexample run shows.) -/
theorem router_terminates_when_stages_record (env : Env) (v c b a : Resp)
    (hv : env.supplier_validate = some v) (hc : env.supplier_capacity = some c)
    (hb : env.budget_avail = some b) (hbe : b.error = false)
    (ha : env.approvers = some a) (hae : a.error = false)
    (hn : (env.email.isSome || env.slack.isSome) = true) :
    should_continue (run_loop env 5 initial_state) = "END" := by
  have e1 : run_loop env 5 initial_state =
      run_loop env 4 (check_supplier env initial_state) := rfl
  obtain ⟨c1, c2, c3, c4, c5, c6⟩ := check_supplier_effects env initial_state v c hv hc
  have sc1 : should_continue (check_supplier env initial_state) = "verify_budget" := by
    unfold should_continue
    rw [c1, c2]
    simp [initial_state]
  have e2 : run_loop env 4 (check_supplier env initial_state) =
      run_loop env 3 (verify_budget env (check_supplier env initial_state)) := by
    have step : run_loop env 4 (check_supplier env initial_state) =
        if should_continue (check_supplier env initial_state) = "END"
        then check_supplier env initial_state
        else run_loop env 3 (run_stage env
          (should_continue (check_supplier env initial_state))
          (check_supplier env initial_state)) := rfl
    rw [sc1] at step
    simpa [run_stage] using step
  set s1 := check_supplier env initial_state with hs1
  obtain ⟨d1, d2, d3, d4, d5, d6⟩ := verify_budget_effects env s1 b hb hbe
  have sc2 : should_continue (verify_budget env s1) = "process_approval" := by
    unfold should_continue
    rw [d1, d2, c1, d3, c3]
    simp [initial_state]
  have e3 : run_loop env 3 (verify_budget env s1) =
      run_loop env 2 (process_approval env (verify_budget env s1)) := by
    have step : run_loop env 3 (verify_budget env s1) =
        if should_continue (verify_budget env s1) = "END"
        then verify_budget env s1
        else run_loop env 2 (run_stage env
          (should_continue (verify_budget env s1)) (verify_budget env s1)) := rfl
    rw [sc2] at step
    simpa [run_stage] using step
  set s2 := verify_budget env s1 with hs2
  obtain ⟨p1, p2, p3, p4, p5, p6, p7⟩ := process_approval_effects env s2 a ha hae
  have sc3 : should_continue (process_approval env s2) = "calculate_payment" := by
    unfold should_continue
    rw [p1, p2, d2, c1, p3, d1, p4, d4, c4, p5, d5, c5]
    simp [initial_state]
  have e4 : run_loop env 2 (process_approval env s2) =
      run_loop env 1 (calculate_payment env (process_approval env s2)) := by
    have step : run_loop env 2 (process_approval env s2) =
        if should_continue (process_approval env s2) = "END"
        then process_approval env s2
        else run_loop env 1 (run_stage env
          (should_continue (process_approval env s2)) (process_approval env s2)) := rfl
    rw [sc3] at step
    simpa [run_stage] using step
  set s3 := process_approval env s2 with hs3
  obtain ⟨q1, q2, q3, q4, q5, q6⟩ := calculate_payment_effects env s3
  have hfd : (calculate_payment env s3).final_decision = "APPROVED" ∨
      (calculate_payment env s3).final_decision = "PENDING_APPROVAL" ∨
      (calculate_payment env s3).final_decision = "ERROR" := by
    rcases q6 with h | h
    · rcases p7 with h7 | h7
      · exact Or.inl (h.trans h7)
      · exact Or.inr (Or.inl (h.trans h7))
    · exact Or.inr (Or.inr h)
  have sc4 : should_continue (calculate_payment env s3) = "send_notifications" := by
    unfold should_continue
    rw [q1, q2, p2, d2, c1, q3, p3, d1, q4, p1, q5, p6, d6, c6]
    rcases hfd with h | h | h <;> rw [h] <;> simp [initial_state]
  have e5 : run_loop env 1 (calculate_payment env s3) =
      send_notifications env (calculate_payment env s3) := by
    have step : run_loop env 1 (calculate_payment env s3) =
        if should_continue (calculate_payment env s3) = "END"
        then calculate_payment env s3
        else run_loop env 0 (run_stage env
          (should_continue (calculate_payment env s3)) (calculate_payment env s3)) := rfl
    rw [sc4] at step
    simpa [run_stage, run_loop] using step
  set s4 := calculate_payment env s3 with hs4
  obtain ⟨r1, r2, r3, r4, r5, r6, r7⟩ := send_notifications_effects env s4
  have sc5 : should_continue (send_notifications env s4) = "END" := by
    unfold should_continue
    rw [r1, q2, p2, d2, c1, r2, q3, p3, d1, r3, q4, p1, r5, q1, r7 hn]
    simp
  rw [e1, e2, e3, e4, e5]
  exact sc5

/-- Witness for the C2 amended theorem at a concrete productive environment. -/
theorem router_terminates_when_stages_record_witness :
    should_continue (run_loop env_productive 5 initial_state) = "END" :=
  router_terminates_when_stages_record env_productive
    { valid := true } { capacity_ok := true } { available := true }
    { auto_approve := true } rfl rfl rfl rfl rfl rfl rfl

/-! ### C7 — error responses are not uniformly mapped to ERROR -/

/-- C7 counterexample: the same `error: true` collaborator payload yields
final_decision REJECTED at the check-supplier stage but ERROR at the
verify-budget and process-approval stages — the claimed uniform
operational-failure treatment fails at check_supplier. -/
theorem error_response_not_uniform :
    (check_supplier env_error_responses initial_state).final_decision = "REJECTED" ∧
    (check_supplier env_error_responses initial_state).final_decision ≠ "ERROR" ∧
    (verify_budget env_error_responses initial_state).final_decision = "ERROR" ∧
    (process_approval env_error_responses initial_state).final_decision = "ERROR" := by
  refine ⟨by decide, by decide, by decide, by decide⟩

/-- C7 amended: verify_budget and process_approval map an explicit
`error: true` response to the operational outcome ERROR, while check_supplier
maps it to REJECTED — the same decision value as a business-negative response
(invalid supplier, unavailable budget), distinguished only in the reason
text. -/
theorem error_vs_business_decisions (env env2 : Env) (s : WState)
    (v c b a v2 c2 b2 : Resp)
    (hv : env.supplier_validate = some v) (hc : env.supplier_capacity = some c)
    (hverr : v.error = true)
    (hb : env.budget_avail = some b) (hberr : b.error = true)
    (ha : env.approvers = some a) (haerr : a.error = true)
    (hv2 : env2.supplier_validate = some v2) (hc2 : env2.supplier_capacity = some c2)
    (hv2e : v2.error = false) (hc2e : c2.error = false) (hv2v : v2.valid = false)
    (hb2 : env2.budget_avail = some b2) (hb2e : b2.error = false)
    (hb2a : b2.available = false) :
    (check_supplier env s).final_decision = "REJECTED" ∧
    (verify_budget env s).final_decision = "ERROR" ∧
    (process_approval env s).final_decision = "ERROR" ∧
    (check_supplier env2 s).final_decision = "REJECTED" ∧
    (verify_budget env2 s).final_decision = "REJECTED" := by
  refine ⟨?_, ?_, ?_, ?_, ?_⟩
  · simp [check_supplier, hv, hc, hverr]
  · simp [verify_budget, hb, hberr]
  · simp [process_approval, ha, haerr]
  · simp [check_supplier, hv2, hc2, hv2e, hc2e, hv2v]
  · simp [verify_budget, hb2, hb2e, hb2a]

/-- Witness for the C7 amended theorem at the two concrete environments. -/
theorem error_vs_business_decisions_witness :
    (check_supplier env_error_responses initial_state).final_decision = "REJECTED" ∧
    (verify_budget env_error_responses initial_state).final_decision = "ERROR" ∧
    (process_approval env_error_responses initial_state).final_decision = "ERROR" ∧
    (check_supplier env_business_negative initial_state).final_decision = "REJECTED" ∧
    (verify_budget env_business_negative initial_state).final_decision = "REJECTED" :=
  error_vs_business_decisions env_error_responses env_business_negative initial_state
    { error := true, message := "db down" } {} { error := true, message := "db down" }
    { error := true, message := "db down" }
    { valid := false, message := "Supplier not found" } { capacity_ok := true }
    { available := false }
    rfl rfl rfl rfl rfl rfl rfl rfl rfl rfl rfl rfl rfl rfl rfl

end POAuto
